import Mathlib

/-!
Verification of the authenticated API client (`ApiService` in the frontend
source) of the industrial-digital-polygon repository.

The JavaScript class is shallowly embedded as pure Lean functions:
* `localStorage` becomes `CredentialStore` (one `authToken` slot),
* the `ApiService` instance state (`this.token` plus the store) becomes
  `ApiState`, threaded explicitly through every operation,
* JS objects used as header maps become association lists (`HMap`) with
  last-write-wins update, mirroring object-spread / property-assignment
  semantics,
* `fetch` is a parameter `Descriptor → FetchOutcome` supplied by the caller
  of each operation; a rejected promise, an HTTP response with a given
  status, and an unparseable body are the three outcomes,
* thrown JS errors become the `Thrown` inductive carried in `Except`.

Every operation returns an `OpResult`: the JS return value (or thrown
error), the resulting service state, and the list of requests issued.
-/

/-- JS object holding string-valued fields (request headers). Represented as
an association list without duplicate keys; `hset` is property assignment /
spread overwrite (last write wins). -/
abbrev HMap := List (String × String)

/-- Read a field of a header object (`undefined` becomes `none`). -/
def hget (m : HMap) (k : String) : Option String :=
  (m.find? (fun p => p.1 == k)).map (fun p => p.2)

/-- Assign a field of a header object, overwriting any previous value. -/
def hset (m : HMap) (k v : String) : HMap :=
  m.filter (fun p => p.1 != k) ++ [(k, v)]

/-- Object spread `\x7b...m1, ...m2\x7d`: fields of `m2` overwrite those of `m1`. -/
def hmerge (m1 m2 : HMap) : HMap :=
  m2.foldl (fun acc p => hset acc p.1 p.2) m1

/-- JS truthiness of the token slot: `null` and the empty string are falsy,
every other string is truthy. -/
def truthy : Option String → Bool
  | none => false
  | some s => s != ""

/-- `localStorage`, restricted to the single key `authToken` the client
uses. `getItem` of a missing key yields `null`, i.e. `none`. -/
structure CredentialStore where
  authToken : Option String
deriving DecidableEq, Repr

/-- The mutable state of an `ApiService` instance: the in-memory
`this.token` field together with the durable store. -/
structure ApiState where
  token : Option String
  store : CredentialStore
deriving DecidableEq, Repr

/-- The constructor: `this.token = localStorage.getItem('authToken')`. -/
def ApiService.init (store : CredentialStore) : ApiState :=
  { token := store.authToken, store := store }

/-- `setToken(token)`: stores the value in memory unconditionally; writes it
to the store when truthy, removes the store entry otherwise. -/
def setToken (t : Option String) (_st : ApiState) : ApiState :=
  if truthy t then { token := t, store := { authToken := t } }
  else { token := t, store := { authToken := none } }

/-- A JSON value as produced by `response.json()` / consumed by
`JSON.stringify` (arrays are not needed by any operation here). -/
inductive Json where
  | null
  | bool (b : Bool)
  | num (n : Int)
  | str (s : String)
  | obj (fields : List (String × Json))
deriving Repr

/-- Field access `data.k` on a parsed JSON value; `undefined` is `none`. -/
def jget (j : Json) (k : String) : Option Json :=
  match j with
  | .obj fs => (fs.find? (fun p => p.1 == k)).map (fun p => p.2)
  | _ => none

/-- JS truthiness of a possibly-absent JSON value. -/
def jtruthy : Option Json → Bool
  | none => false
  | some .null => false
  | some (.bool b) => b
  | some (.num n) => n != 0
  | some (.str s) => s != ""
  | some (.obj _) => true

/-- JS string coercion of a JSON value (used when a token captured from a
response is written to storage; observationally it does not matter whether
the coercion happens at set time or at use time). -/
def jsString : Json → String
  | .null => "null"
  | .bool b => if b then "true" else "false"
  | .num n => toString n
  | .str s => s
  | .obj _ => "[object Object]"

/-- Escaping of `JSON.stringify` for the characters that need it here. -/
def jsonEscape (s : String) : String :=
  s.foldl (fun acc c =>
    if c = '\\' then acc ++ "\\\\"
    else if c = '"' then acc ++ "\\\""
    else acc ++ c.toString) ""

mutual

/-- `JSON.stringify` (no extra whitespace, fields in object order). -/
def Json.stringify : Json → String
  | .null => "null"
  | .bool b => if b then "true" else "false"
  | .num n => toString n
  | .str s => "\"" ++ jsonEscape s ++ "\""
  | .obj fs => "\x7b" ++ String.intercalate "," (Json.stringifyFields fs) ++ "\x7d"

/-- The serialized `"key":value` pieces of an object body. -/
def Json.stringifyFields : List (String × Json) → List String
  | [] => []
  | (k, v) :: rest =>
      ("\"" ++ jsonEscape k ++ "\":" ++ Json.stringify v) :: Json.stringifyFields rest

end

/-- The `options` argument of `request`: optional `method`, `body` and
`headers` fields (absent field = `none`). -/
structure Options where
  method : Option String := none
  body : Option String := none
  headers : Option HMap := none

/-- The `config` object built inside `request`. -/
structure Config where
  method : Option String
  body : Option String
  headers : HMap

def API_BASE_URL : String := "/api"

/-- Embeds the object literal in `request`:
`config = \x7b headers: \x7b'Content-Type': 'application/json', ...options.headers\x7d, ...options \x7d`.
The inner literal merges the default `Content-Type` with the caller's
headers, but the trailing `...options` spread then overwrites the `headers`
key with `options.headers` whenever that field is present, discarding the
merge. -/
def buildConfig (o : Options) : Config :=
  let merged := hmerge [("Content-Type", "application/json")] (o.headers.getD [])
  { method := o.method
    body := o.body
    headers :=
      match o.headers with
      | some h => h
      | none => merged }

/-- The outgoing request finally handed to `fetch`: the config after the
`if (this.token) config.headers.Authorization = ...` mutation, together with
the URL `API_BASE_URL + endpoint`. -/
structure Descriptor where
  url : String
  method : Option String
  body : Option String
  headers : HMap
deriving Repr

def buildDescriptor (token : Option String) (endpoint : String) (o : Options) : Descriptor :=
  let c := buildConfig o
  let hs :=
    if truthy token then hset c.headers "Authorization" ("Bearer " ++ token.getD "")
    else c.headers
  { url := API_BASE_URL ++ endpoint, method := c.method, body := c.body, headers := hs }

/-- What `await fetch(url, config)` followed by `response.json()` can do:
the promise rejects (network failure), or a response arrives with a status
code and a body that either parses to JSON (`some`) or does not (`none`). -/
inductive FetchOutcome where
  | reject (cause : String)
  | response (status : Nat) (body : Option Json)

/-- Errors thrown out of `request`: the rethrown fetch rejection, the
`Error` built for a non-ok status, or the `response.json()` rejection. -/
inductive Thrown where
  | cause (c : String)
  | httpStatus (status : Nat)
  | parseFailure
deriving DecidableEq, Repr

/-- The `message` of the thrown error. -/
def Thrown.message : Thrown → String
  | .cause c => c
  | .httpStatus s => "HTTP error! status: " ++ toString s
  | .parseFailure => "unexpected token in JSON"

/-- `response.ok`: status in the inclusive range 200..299. -/
def responseOk (status : Nat) : Bool :=
  200 ≤ status && status ≤ 299

/-- Result of running one domain operation: the value returned (or error
thrown), the service state afterwards, and the requests issued in order. -/
structure OpResult (α : Type) where
  result : Except Thrown α
  state : ApiState
  trace : List Descriptor

/-- `request(endpoint, options)`: builds the descriptor, issues it once, and
either returns the parsed JSON body or throws. The status check precedes
body parsing; the catch block logs and rethrows the same error. `this` is
never written, so the state comes back unchanged. -/
def ApiService.request (st : ApiState) (endpoint : String) (o : Options)
    (fetch : Descriptor → FetchOutcome) : OpResult Json :=
  let d := buildDescriptor st.token endpoint o
  let result : Except Thrown Json :=
    match fetch d with
    | .reject c => .error (.cause c)
    | .response status body =>
        if responseOk status then
          match body with
          | some j => .ok j
          | none => .error .parseFailure
        else .error (.httpStatus status)
  { result := result, state := st, trace := [d] }

/-- The options object `login` passes to `request`. -/
def loginOptions (username password : String) : Options :=
  { method := some "POST"
    body := some (Json.stringify (.obj [("username", .str username), ("password", .str password)])) }

/-- `login(username, password)`: POSTs the credentials; if the awaited data
has a truthy `access_token` field, captures it via `setToken`; returns the
raw data either way. A thrown error propagates before the token check. -/
def login (st : ApiState) (username password : String)
    (fetch : Descriptor → FetchOutcome) : OpResult Json :=
  let r := ApiService.request st "/auth/login" (loginOptions username password) fetch
  match r.result with
  | .ok data =>
      if jtruthy (jget data "access_token") then
        { result := .ok data
          state := setToken ((jget data "access_token").map jsString) r.state
          trace := r.trace }
      else { result := .ok data, state := r.state, trace := r.trace }
  | .error e => { result := .error e, state := r.state, trace := r.trace }

/-- `logout()`: awaits the POST to `/auth/logout`, then calls
`setToken(null)`. When the awaited request throws, the error propagates and
the `setToken(null)` statement is never reached. -/
def logout (st : ApiState) (fetch : Descriptor → FetchOutcome) : OpResult Unit :=
  let r := ApiService.request st "/auth/logout" { method := some "POST" } fetch
  match r.result with
  | .ok _ => { result := .ok (), state := setToken none r.state, trace := r.trace }
  | .error e => { result := .error e, state := r.state, trace := r.trace }

/-- `getCurrentUser()`. -/
def getCurrentUser (st : ApiState) (fetch : Descriptor → FetchOutcome) : OpResult Json :=
  ApiService.request st "/auth/me" {} fetch

/-- A value of the `params` object handed to `getUsers` (a JS field value:
`null`, `undefined`, a string, a number, or a boolean). -/
inductive JSVal where
  | null
  | undef
  | str (s : String)
  | num (n : Int)
  | bool (b : Bool)
deriving DecidableEq, Repr

/-- The guard `value !== null && value !== undefined && value !== ''`
(strict equality: only the string `''` matches `''`). -/
def JSVal.keep : JSVal → Bool
  | .null => false
  | .undef => false
  | .str s => s != ""
  | .num _ => true
  | .bool _ => true

/-- `value.toString()` for kept values (`null`/`undefined` are filtered out
before the call; JS would throw on them). -/
def JSVal.jsToString : JSVal → String
  | .null => "null"
  | .undef => "undefined"
  | .str s => s
  | .num n => toString n
  | .bool b => if b then "true" else "false"

/-- One hexadecimal digit, uppercase, as used by URLSearchParams. -/
def hexDigit (n : Nat) : Char :=
  if n < 10 then Char.ofNat (48 + n) else Char.ofNat (55 + n)

/-- application/x-www-form-urlencoded serialization of one character:
alphanumerics and `*-._` kept, space becomes `+`, everything else
percent-encoded byte-wise (UTF-8). -/
def formEncodeChar (c : Char) : String :=
  if c.isAlphanum || c == '*' || c == '-' || c == '.' || c == '_' then c.toString
  else if c == ' ' then "+"
  else String.join ((String.toUTF8 c.toString).toList.map
    (fun b => "%" ++ (hexDigit (b.toNat / 16)).toString ++ (hexDigit (b.toNat % 16)).toString))

def formEncode (s : String) : String :=
  String.join (s.toList.map formEncodeChar)

/-- `URLSearchParams.toString()` over the appended pairs. -/
def searchParamsToString (ps : List (String × String)) : String :=
  String.intercalate "&" (ps.map (fun p => formEncode p.1 ++ "=" ++ formEncode p.2))

/-- The `Object.entries(params).forEach(... queryParams.append ...)` loop:
appends, in order, each entry whose value passes the guard. -/
def buildQueryPairs (params : List (String × JSVal)) : List (String × String) :=
  params.foldl (fun acc p => if p.2.keep then acc ++ [(p.1, p.2.jsToString)] else acc) []

/-- `getUsers(params)`. -/
def getUsers (st : ApiState) (params : List (String × JSVal))
    (fetch : Descriptor → FetchOutcome) : OpResult Json :=
  ApiService.request st ("/users/?" ++ searchParamsToString (buildQueryPairs params)) {} fetch

/-- `createUser(userData)`. -/
def createUser (st : ApiState) (userData : Json)
    (fetch : Descriptor → FetchOutcome) : OpResult Json :=
  ApiService.request st "/users/"
    { method := some "POST", body := some userData.stringify } fetch

/-- `updateUserUsername(userId, newUsername)`. -/
def updateUserUsername (st : ApiState) (userId : Nat) (newUsername : String)
    (fetch : Descriptor → FetchOutcome) : OpResult Json :=
  ApiService.request st ("/users/" ++ toString userId ++ "/username")
    { method := some "PUT"
      body := some (Json.stringify
        (.obj [("user_id", .num userId), ("new_username", .str newUsername)])) } fetch

/-- `updateUserRole(userId, newRole)`. -/
def updateUserRole (st : ApiState) (userId : Nat) (newRole : String)
    (fetch : Descriptor → FetchOutcome) : OpResult Json :=
  ApiService.request st ("/users/" ++ toString userId ++ "/role")
    { method := some "PUT"
      body := some (Json.stringify
        (.obj [("user_id", .num userId), ("new_role", .str newRole)])) } fetch

/-- `updateUserPassword(userId, newPassword)`. -/
def updateUserPassword (st : ApiState) (userId : Nat) (newPassword : String)
    (fetch : Descriptor → FetchOutcome) : OpResult Json :=
  ApiService.request st ("/users/" ++ toString userId ++ "/password")
    { method := some "PUT"
      body := some (Json.stringify
        (.obj [("user_id", .num userId), ("new_password", .str newPassword)])) } fetch

/-- `deactivateUser(userId)`. -/
def deactivateUser (st : ApiState) (userId : Nat)
    (fetch : Descriptor → FetchOutcome) : OpResult Json :=
  ApiService.request st ("/users/" ++ toString userId ++ "/deactivate")
    { method := some "POST" } fetch

/-- `activateUser(userId)`. -/
def activateUser (st : ApiState) (userId : Nat)
    (fetch : Descriptor → FetchOutcome) : OpResult Json :=
  ApiService.request st ("/users/" ++ toString userId ++ "/activate")
    { method := some "POST" } fetch

/-- `deleteUser(userId)`. -/
def deleteUser (st : ApiState) (userId : Nat)
    (fetch : Descriptor → FetchOutcome) : OpResult Json :=
  ApiService.request st ("/users/" ++ toString userId)
    { method := some "DELETE" } fetch

/-! ## Helper lemmas -/

theorem hget_hset_self (m : HMap) (k v : String) : hget (hset m k v) k = some v := by
  unfold hget hset
  have h1 : (m.filter (fun p => p.1 != k)).find? (fun p => p.1 == k) = none := by
    rw [List.find?_eq_none]
    intro x hx
    have hmem := List.of_mem_filter hx
    simp only [bne_iff_ne, ne_eq, decide_eq_true_eq] at hmem
    simp [hmem]
  rw [List.find?_append, h1]
  simp

theorem auth_header_set (t : String) (ht : t ≠ "") (endpoint : String) (o : Options) :
    hget (buildDescriptor (some t) endpoint o).headers "Authorization"
      = some ("Bearer " ++ t) := by
  have htr : truthy (some t) = true := by simp [truthy, ht]
  unfold buildDescriptor
  simp only [htr, if_true, Option.getD_some]
  exact hget_hset_self _ _ _

theorem keep_iff (v : JSVal) :
    v.keep = decide (v ≠ .null ∧ v ≠ .undef ∧ v ≠ .str "") := by
  cases v with
  | str s =>
      by_cases hs : s = "" <;> simp [JSVal.keep, hs]
  | _ => simp [JSVal.keep]

theorem buildQueryPairs_filter (params : List (String × JSVal)) :
    buildQueryPairs params
      = (params.filter (fun p => p.2.keep)).map (fun p => (p.1, p.2.jsToString)) := by
  unfold buildQueryPairs
  suffices h : ∀ acc : List (String × String),
      params.foldl (fun acc p => if p.2.keep then acc ++ [(p.1, p.2.jsToString)] else acc) acc
        = acc ++ (params.filter (fun p => p.2.keep)).map (fun p => (p.1, p.2.jsToString)) by
    simpa using h []
  induction params with
  | nil => intro acc; simp
  | cons p t ih =>
      intro acc
      by_cases hk : p.2.keep <;> simp [List.foldl_cons, List.filter_cons, hk, ih]

/-! ## Claim theorems -/

/-- C1 counterexample: with an active session `"tok"` and a logout network
call that fails, `logout()` rethrows and the session token is still
present afterwards — the claim that the token is absent after `logout()`
fails is false on the code. -/
theorem C1_logout_counterexample :
    (logout { token := some "tok", store := { authToken := some "tok" } }
        (fun _ => .reject "network down")).result = .error (.cause "network down") ∧
    (logout { token := some "tok", store := { authToken := some "tok" } }
        (fun _ => .reject "network down")).state.token = some "tok" ∧
    (logout { token := some "tok", store := { authToken := some "tok" } }
        (fun _ => .reject "network down")).state.token ≠ none := by
  refine ⟨rfl, rfl, by decide⟩

/-- C1 (amended): `logout()` clears the in-memory token and the Credential
Store entry when the logout request succeeds, but when the network call
throws, the error propagates before `setToken(null)` runs and the session
state is left unchanged. -/
theorem C1_logout_amended (st : ApiState) (fetch : Descriptor → FetchOutcome) :
    ((logout st fetch).result = .ok () →
      (logout st fetch).state.token = none ∧
      (logout st fetch).state.store.authToken = none) ∧
    (∀ e, (logout st fetch).result = .error e → (logout st fetch).state = st) := by
  unfold logout ApiService.request
  cases hf : fetch (buildDescriptor st.token "/auth/logout" { method := some "POST" }) with
  | reject c => simp [hf, setToken, truthy]
  | response status body =>
      by_cases hok : responseOk status
      · cases body with
        | some j => simp [hf, hok, setToken, truthy]
        | none => simp [hf, hok]
      · simp [hf, hok]

/-- C1 witness: a concrete successful logout from an authenticated state
leaves the token absent. -/
theorem C1_logout_amended_witness :
    (logout { token := some "tok", store := { authToken := some "tok" } }
        (fun _ => .response 200 (some .null))).state.token = none :=
  ((C1_logout_amended { token := some "tok", store := { authToken := some "tok" } }
      (fun _ => .response 200 (some .null))).1 rfl).1

/-- C2: evaluation at the failing input. When the caller supplies any
`headers` object (here one without a `Content-Type` entry), the trailing
`...options` spread in `request` replaces the merged headers, so the final
descriptor has no `Content-Type` header at all; the default only survives
when the caller supplies no headers. -/
theorem C2_contentType_dropped :
    hget (buildDescriptor none "/users/"
        { headers := some [("X-Custom", "1")] }).headers "Content-Type" = none ∧
    hget (buildDescriptor none "/users/"
        { headers := some [("X-Custom", "1")] }).headers "X-Custom" = some "1" ∧
    hget (buildDescriptor none "/users/" {}).headers "Content-Type"
      = some "application/json" := by
  refine ⟨rfl, rfl, rfl⟩

/-- C3: whenever a non-empty session token `t` is active, the built request
carries `Authorization: Bearer t`, for every endpoint and every
caller-supplied options object — a caller-supplied `Authorization` header is
overwritten by the assignment performed after the merge. -/
theorem C3_authorization_always_bearer (t : String) (ht : t ≠ "")
    (endpoint : String) (o : Options) :
    hget (buildDescriptor (some t) endpoint o).headers "Authorization"
      = some ("Bearer " ++ t) :=
  auth_header_set t ht endpoint o

/-- C3 witness: a caller trying to spoof the `Authorization` header still
ends up with `Bearer tok`. -/
theorem C3_authorization_witness :
    hget (buildDescriptor (some "tok") "/auth/me"
        { headers := some [("Authorization", "spoofed")] }).headers "Authorization"
      = some ("Bearer " ++ "tok") :=
  C3_authorization_always_bearer "tok" (by decide) "/auth/me"
    { headers := some [("Authorization", "spoofed")] }

/-- C4: when the backend answers the login POST with a success status and a
parsed JSON body that has no `access_token` field, `login` returns that body
as a normal value and the session state (in-memory token and store) is
unchanged; the token-capturing branch runs only on a truthy `access_token`.
The `body` is arbitrary otherwise, e.g. it may carry only an `error` field. -/
theorem C4_login_error_payload (st : ApiState) (username password : String)
    (fetch : Descriptor → FetchOutcome) (status : Nat) (data : Json)
    (hfetch : fetch (buildDescriptor st.token "/auth/login" (loginOptions username password))
      = .response status (some data))
    (hok : 200 ≤ status ∧ status ≤ 299)
    (hmiss : jget data "access_token" = none) :
    (login st username password fetch).result = .ok data ∧
    (login st username password fetch).state = st := by
  have hro : responseOk status = true := by
    simp [responseOk, hok.1, hok.2]
  unfold login ApiService.request
  simp [hfetch, hro, hmiss, jtruthy]

/-- C4 witness: `login('a','bad')` against a backend replying 200 with body
`\x7b"error": "invalid credentials"\x7d` returns the error payload and leaves the
state Anonymous. -/
theorem C4_login_error_witness :
    (login { token := none, store := { authToken := none } } "a" "bad"
        (fun _ => .response 200 (some (.obj [("error", .str "invalid credentials")])))).result
      = .ok (.obj [("error", .str "invalid credentials")]) ∧
    (login { token := none, store := { authToken := none } } "a" "bad"
        (fun _ => .response 200 (some (.obj [("error", .str "invalid credentials")])))).state
      = { token := none, store := { authToken := none } } :=
  C4_login_error_payload { token := none, store := { authToken := none } } "a" "bad"
    (fun _ => .response 200 (some (.obj [("error", .str "invalid credentials")])))
    200 (.obj [("error", .str "invalid credentials")]) rfl (by omega) rfl

/-- C5: the query pairs appended by `getUsers` are exactly the entries of
the filter object whose values are neither `null` nor `undefined` nor the
empty string, each rendered as key with the stringified value; on the
spec's example the serialized query string is `role=ADMIN&limit=50&offset=0`
and carries no `is_active` key. -/
theorem C5_query_filter_omission (params : List (String × JSVal)) :
    buildQueryPairs params
      = (params.filter (fun p => p.2 ≠ .null ∧ p.2 ≠ .undef ∧ p.2 ≠ .str "")).map
          (fun p => (p.1, p.2.jsToString)) ∧
    searchParamsToString (buildQueryPairs
        [("is_active", .str ""), ("role", .str "ADMIN"), ("limit", .num 50), ("offset", .num 0)])
      = "role=ADMIN&limit=50&offset=0" ∧
    (buildQueryPairs
        [("is_active", .str ""), ("role", .str "ADMIN"), ("limit", .num 50), ("offset", .num 0)]).map
        Prod.fst = ["role", "limit", "offset"] := by
  refine ⟨?_, ?_, ?_⟩
  · rw [buildQueryPairs_filter]
    congr 1
    apply List.filter_congr
    intro p _
    rw [keep_iff]
  · rfl
  · rfl

/-- C6: whenever the response status is outside 200..299, `request` throws
the `Error` whose message embeds the numeric status, whatever the body is
(parsed or unparseable) — the status check precedes body parsing. -/
theorem C6_http_error (st : ApiState) (endpoint : String) (o : Options)
    (fetch : Descriptor → FetchOutcome) (status : Nat) (body : Option Json)
    (hfetch : fetch (buildDescriptor st.token endpoint o) = .response status body)
    (hbad : status < 200 ∨ 300 ≤ status) :
    (ApiService.request st endpoint o fetch).result = .error (.httpStatus status) ∧
    Thrown.message (.httpStatus status) = "HTTP error! status: " ++ toString status := by
  have hro : responseOk status = false := by
    unfold responseOk
    rcases hbad with h | h
    · have h2 : ¬ 200 ≤ status := by omega
      simp [h2]
    · have h2 : ¬ status ≤ 299 := by omega
      simp [h2]
  refine ⟨?_, rfl⟩
  unfold ApiService.request
  simp [hfetch, hro]

/-- C6 witness: a 404 response with a valid JSON body still yields the
status-embedding failure. -/
theorem C6_http_error_witness :
    (ApiService.request { token := none, store := { authToken := none } } "/users/42" {}
        (fun _ => .response 404 (some (.obj [("detail", .str "Not Found")])))).result
      = .error (.httpStatus 404) ∧
    Thrown.message (.httpStatus 404) = "HTTP error! status: " ++ toString 404 :=
  C6_http_error { token := none, store := { authToken := none } } "/users/42" {}
    (fun _ => .response 404 (some (.obj [("detail", .str "Not Found")])))
    404 (some (.obj [("detail", .str "Not Found")])) rfl (by omega)

/-- C7 counterexample: at `t = ""` the round-trip fails — after
`setToken('')` the in-memory field holds the empty string, but the store
entry is removed (the empty string is falsy), so a fresh controller
initialized from the store yields absent, not `''`. -/
theorem C7_roundtrip_counterexample :
    (setToken (some "") { token := none, store := { authToken := none } }).token = some "" ∧
    (ApiService.init
        (setToken (some "") { token := none, store := { authToken := none } }).store).token
      = none ∧
    (ApiService.init
        (setToken (some "") { token := none, store := { authToken := none } }).store).token
      ≠ some "" := by
  refine ⟨rfl, rfl, by decide⟩

/-- C7 (amended): for every token value `t` other than the empty string,
including absent, after `setToken t` the in-memory token is exactly `t`, the
store holds the same value, and a fresh controller initialized from the
store yields `t` again. -/
theorem C7_roundtrip_amended (t : Option String) (st : ApiState) (h : t ≠ some "") :
    (setToken t st).token = t ∧
    (setToken t st).store.authToken = t ∧
    (ApiService.init (setToken t st).store).token = t := by
  match t with
  | none => exact ⟨rfl, rfl, rfl⟩
  | some s =>
      have hs : (s != "") = true := by
        simp only [bne_iff_ne, ne_eq, decide_eq_true_eq]
        intro hs
        exact h (by rw [hs])
      simp [setToken, truthy, hs, ApiService.init]

/-- C7 witness: the round-trip at the concrete token `"tok"`. -/
theorem C7_roundtrip_witness :
    (setToken (some "tok") { token := none, store := { authToken := none } }).token
      = some "tok" ∧
    (setToken (some "tok") { token := none, store := { authToken := none } }).store.authToken
      = some "tok" ∧
    (ApiService.init
        (setToken (some "tok") { token := none, store := { authToken := none } }).store).token
      = some "tok" :=
  C7_roundtrip_amended (some "tok") { token := none, store := { authToken := none } }
    (by decide)

/-- C8: every CRUD operation returns the service state it was given, for
every starting state, every argument and every fetch outcome — only `login`
and `logout` reach `setToken`. -/
theorem C8_crud_preserve_session (st : ApiState) (fetch : Descriptor → FetchOutcome)
    (params : List (String × JSVal)) (userData : Json) (userId : Nat)
    (newUsername newRole newPassword : String) :
    (getUsers st params fetch).state = st ∧
    (createUser st userData fetch).state = st ∧
    (updateUserUsername st userId newUsername fetch).state = st ∧
    (updateUserRole st userId newRole fetch).state = st ∧
    (updateUserPassword st userId newPassword fetch).state = st ∧
    (deactivateUser st userId fetch).state = st ∧
    (activateUser st userId fetch).state = st ∧
    (deleteUser st userId fetch).state = st :=
  ⟨rfl, rfl, rfl, rfl, rfl, rfl, rfl, rfl⟩

/-- C9: `deleteUser userId` issues exactly one request, a DELETE to
`/users/userId` under the API base path, with no body, and with the
`Authorization: Bearer t` header when a non-empty session token `t` is
active. -/
theorem C9_deleteUser_request (st : ApiState) (userId : Nat)
    (fetch : Descriptor → FetchOutcome) (t : String)
    (htok : st.token = some t) (hne : t ≠ "") :
    ∃ d, (deleteUser st userId fetch).trace = [d] ∧
      d.method = some "DELETE" ∧
      d.url = API_BASE_URL ++ ("/users/" ++ toString userId) ∧
      d.body = none ∧
      hget d.headers "Authorization" = some ("Bearer " ++ t) := by
  refine ⟨buildDescriptor st.token ("/users/" ++ toString userId) { method := some "DELETE" },
    rfl, rfl, rfl, rfl, ?_⟩
  rw [htok]
  exact auth_header_set t hne ("/users/" ++ toString userId) { method := some "DELETE" }

/-- C9 witness: `deleteUser 42` from an authenticated state. -/
theorem C9_deleteUser_witness :
    ∃ d, (deleteUser { token := some "tok", store := { authToken := some "tok" } } 42
        (fun _ => .reject "offline")).trace = [d] ∧
      d.method = some "DELETE" ∧
      d.url = API_BASE_URL ++ ("/users/" ++ toString 42) ∧
      d.body = none ∧
      hget d.headers "Authorization" = some ("Bearer " ++ "tok") :=
  C9_deleteUser_request { token := some "tok", store := { authToken := some "tok" } } 42
    (fun _ => .reject "offline") "tok" rfl (by decide)

/-- C10: after `setToken('')` the store entry is removed while the
in-memory field holds the empty string, and every descriptor subsequently
built from that state (for any endpoint, and any options that do not
themselves smuggle in an `Authorization` entry — none of the domain
operations do) carries no `Authorization` header, because the empty string
is falsy in the `if (this.token)` guard. -/
theorem C10_empty_token_absent (st : ApiState) (endpoint : String) (o : Options)
    (hcaller : hget (buildConfig o).headers "Authorization" = none) :
    (setToken (some "") st).store.authToken = none ∧
    (setToken (some "") st).token = some "" ∧
    hget (buildDescriptor (setToken (some "") st).token endpoint o).headers "Authorization"
      = none := by
  refine ⟨rfl, rfl, ?_⟩
  have htr : truthy (setToken (some "") st).token = false := rfl
  simp [buildDescriptor, htr, hcaller]

/-- C10 witness: a follow-up request built with default options after
`setToken('')` carries no `Authorization` header. -/
theorem C10_empty_token_witness :
    (setToken (some "") { token := some "old", store := { authToken := some "old" } }).store.authToken
      = none ∧
    (setToken (some "") { token := some "old", store := { authToken := some "old" } }).token
      = some "" ∧
    hget (buildDescriptor
        (setToken (some "") { token := some "old", store := { authToken := some "old" } }).token
        "/auth/me" {}).headers "Authorization" = none :=
  C10_empty_token_absent { token := some "old", store := { authToken := some "old" } }
    "/auth/me" {} rfl
